import Mathlib

/-
Shallow embedding of `src/simulationarchive.c` (REBOUND Simulation Archive).

Modelling conventions:
* A C `double` is modelled as a rational number `ℚ`; one stored scalar
  occupies `sizeof(double) = 8` bytes.
* The archive file is a header record (opaque to this core, written by the
  external full-state exporter) followed by a flat region of 8-byte scalars.
* Wall-clock timestamps (`struct timeval`, `gettimeofday`) are modelled as a
  single rational "now" value passed in by the caller; the elapsed-time
  computation `tv_sec + tv_usec/1e6` differences becomes plain subtraction.
* `reb_error` and the external import/export helpers live outside `src/`;
  they are modelled from the spec and marked as such in their doc comments.
-/

namespace SimArchive

/-- One particle (`struct reb_particle`): the seven `double` fields that
simulationarchive.c touches — mass, position and velocity components. -/
structure Particle where
  m : ℚ
  x : ℚ
  y : ℚ
  z : ℚ
  vx : ℚ
  vy : ℚ
  vz : ℚ
  deriving DecidableEq

instance : Inhabited Particle := ⟨⟨0, 0, 0, 0, 0, 0, 0⟩⟩

/-- Integrator kinds as seen by simulationarchive.c: the two supported members
of `enum REB_INTEGRATOR`, and `other` standing for every remaining member
(the C switches treat all of those uniformly through their `default` case). -/
inductive IntegratorKind where
  | whfast
  | ias15
  | other
  deriving DecidableEq

/-- Gravity modes as seen by `reb_simulationarchive_heartbeat`:
`REB_GRAVITY_BASIC`, `REB_GRAVITY_NONE`, and `otherG` for every remaining
member of `enum REB_GRAVITY` (the `default` case of the switch). -/
inductive GravityKind where
  | basic
  | noneG
  | otherG
  deriving DecidableEq

/-- WHFast integrator internals (`r->ri_whfast`) used by this file: the safe
mode flag, the allocation watermark, the synchronization flag, the Jacobi
particle array `p_j` and the cumulative Jacobi mass array `eta`. -/
structure WHFast where
  safe_mode : ℕ
  allocated_N : ℕ
  is_synchronized : ℕ
  p_j : List Particle
  eta : List ℚ
  deriving DecidableEq

/-- One IAS15 coefficient table (`struct reb_dp7`): seven component arrays. -/
structure Dp7 where
  p0 : List ℚ
  p1 : List ℚ
  p2 : List ℚ
  p3 : List ℚ
  p4 : List ℚ
  p5 : List ℚ
  p6 : List ℚ
  deriving DecidableEq

/-- IAS15 integrator internals (`r->ri_ias15`) used by this file: the five
coefficient tables and the two compensated-summation correction arrays. -/
structure IAS15 where
  allocated_N : ℕ
  b : Dp7
  csb : Dp7
  e : Dp7
  br : Dp7
  er : Dp7
  csx : List ℚ
  csv : List ℚ
  deriving DecidableEq

/-- The fields of `struct reb_simulation` that simulationarchive.c reads or
writes, plus an `errors` list modelling the message sink behind `reb_error`. -/
structure SimState where
  t : ℚ
  N : ℕ
  particles : List Particle
  integrator : IntegratorKind
  gravity : GravityKind
  dt : ℚ
  dt_last_done : ℚ
  ri_whfast : WHFast
  ri_ias15 : IAS15
  simulationarchive_interval : ℚ
  simulationarchive_next : ℚ
  simulationarchive_walltime : ℚ
  simulationarchive_time : ℚ
  simulationarchive_seek_first : ℕ
  simulationarchive_seek_blob : ℕ
  errors : List String
  deriving DecidableEq

/-- Modelled from the spec: `reb_error` (tools.c, not under `src/`) records a
non-fatal message on the simulation's error/warning sink; the run continues. -/
def reb_error (r : SimState) (msg : String) : SimState :=
  { r with errors := r.errors ++ [msg] }

/-- C `reb_simulationarchive_blobsize` (lines 150–167): byte size of one
incremental record, with `sizeof(double) = 8`.  For an unsupported integrator
the C function returns 0 after calling `reb_error`; the message side effect
is modelled at the call site in `reb_simulationarchive_heartbeat`. -/
def reb_simulationarchive_blobsize (r : SimState) : ℕ :=
  match r.integrator with
  | .whfast => 8 * 2 + 8 * 7 * r.N
  | .ias15 => 8 * 4 + 8 * 3 * r.N * 5 * 7 + 8 * 7 * r.N + 8 * 3 * r.N * 2
  | .other => 0

end SimArchive

namespace SimArchive

/-- C10: the Blob Size Calculator returns `2 + 7·N` scalars (of 8 bytes each)
for the symplectic (WHFAST) kind and `4 + 5·7·3·N + 7·N + 2·3·N` scalars for
the adaptive-high-order (IAS15) kind. -/
theorem blobsize_formula (r : SimState) :
    (r.integrator = .whfast →
      reb_simulationarchive_blobsize r = 8 * 2 + 8 * (7 * r.N)) ∧
    (r.integrator = .ias15 →
      reb_simulationarchive_blobsize r
        = 8 * 4 + 8 * (5 * 7 * 3 * r.N) + 8 * (7 * r.N) + 8 * (2 * 3 * r.N)) := by
  constructor <;> intro h <;> simp [reb_simulationarchive_blobsize, h] <;> ring

/-- The C `for(i=0;i<N;i++)` serialization loops: `perPart i` is the group of
scalars emitted for particle `i`; the groups are concatenated in index order. -/
def partScalars (perPart : ℕ → List ℚ) : ℕ → List ℚ
  | 0 => []
  | n + 1 => partScalars perPart n ++ perPart n

/-- A block write `fwrite(ptr, sizeof(double)*n, 1, fd)`: exactly `n` scalars
are emitted from the array (`getD _ 0` stands for whatever memory holds when
the array is shorter than `n`; the C code would read out of bounds there). -/
def writeArr (a : List ℚ) (n : ℕ) : List ℚ :=
  (List.range n).map fun i => a.getD i 0

/-- Modelled from the spec: external `reb_save_dp7` (output.c, not under
`src/`) writes the seven component arrays of one coefficient table, `n3`
scalars each, in component order. -/
def reb_save_dp7 (d : Dp7) (n3 : ℕ) : List ℚ :=
  writeArr d.p0 n3 ++ writeArr d.p1 n3 ++ writeArr d.p2 n3 ++ writeArr d.p3 n3 ++
    writeArr d.p4 n3 ++ writeArr d.p5 n3 ++ writeArr d.p6 n3

/-- The seven scalars the WHFAST writer emits for particle `i` (lines
229–235): the mass comes from `parts` (`r->particles`) while the six
coordinates come from `ps` (`p_j` when safe mode is off, else `particles`). -/
def whfastPart (parts ps : List Particle) (i : ℕ) : List ℚ :=
  [(parts.getD i default).m, (ps.getD i default).x, (ps.getD i default).y,
    (ps.getD i default).z, (ps.getD i default).vx, (ps.getD i default).vy,
    (ps.getD i default).vz]

/-- The seven scalars the IAS15 writer emits for particle `i` (lines
246–252), all taken from the particle array. -/
def ias15Part (parts : List Particle) (i : ℕ) : List ℚ :=
  [(parts.getD i default).m, (parts.getD i default).x, (parts.getD i default).y,
    (parts.getD i default).z, (parts.getD i default).vx, (parts.getD i default).vy,
    (parts.getD i default).vz]

/-- The scalars one triggered heartbeat appends (lines 219–266): `t`, the
wall-clock accumulator, then the integrator payload.  IAS15 additionally
leads its payload with `dt` and `dt_last_done` and follows the particle
fields with the five coefficient tables and the two correction arrays.  The
`default` case of the C switch writes no payload. -/
def recordScalars (r : SimState) : List ℚ :=
  [r.t, r.simulationarchive_walltime] ++
    match r.integrator with
    | .whfast =>
        partScalars (whfastPart r.particles
          (if r.ri_whfast.safe_mode = 0 then r.ri_whfast.p_j else r.particles)) r.N
    | .ias15 =>
        [r.dt, r.dt_last_done] ++ partScalars (ias15Part r.particles) r.N ++
          reb_save_dp7 r.ri_ias15.b (r.N * 3) ++ reb_save_dp7 r.ri_ias15.csb (r.N * 3) ++
          reb_save_dp7 r.ri_ias15.e (r.N * 3) ++ reb_save_dp7 r.ri_ias15.br (r.N * 3) ++
          reb_save_dp7 r.ri_ias15.er (r.N * 3) ++
          writeArr r.ri_ias15.csx (r.N * 3) ++ writeArr r.ri_ias15.csv (r.N * 3)
    | .other => []

/-- The archive file: the header record (a full-state snapshot of opaque byte
length `headerLen`, `none` when the full-state importer cannot read the
file) followed by the flat region of 8-byte scalars. -/
structure ArchiveFile where
  header : Option SimState
  headerLen : ℕ
  data : List ℚ
  deriving DecidableEq

/-- Total byte length of the archive file. -/
def fileLen (f : ArchiveFile) : ℕ :=
  f.headerLen + 8 * f.data.length

/-- Modelled from the spec: the external full-state exporter
`reb_output_binary` (output.c, not under `src/`) truncates the file, writes the
complete snapshot of the state as the header record, and `seek_first` is
recorded as the resulting file length.  `hlen` abstracts the byte length of
the snapshot the exporter produces. -/
def reb_output_binary (hlen : ℕ) (r : SimState) : SimState × ArchiveFile :=
  ({ r with simulationarchive_seek_first := hlen }, ⟨some r, hlen, []⟩)

/-- The metadata update of a triggered append (lines 211–216): advance `next`
by one interval, add the elapsed wall-clock time to the accumulator, and
re-anchor the wall-clock timestamp to `now`. -/
def hbAppendState (now : ℚ) (r : SimState) : SimState :=
  { r with
    simulationarchive_next := r.simulationarchive_next + r.simulationarchive_interval
    simulationarchive_walltime :=
      r.simulationarchive_walltime + (now - r.simulationarchive_time)
    simulationarchive_time := now }

/-- C `reb_simulationarchive_heartbeat` (lines 192–269).  At `t == 0`: store
`seek_blob` (with `reb_error` fired for the unsupported integrator inside
`reb_simulationarchive_blobsize`), check the gravity module, advance `next` by
one interval, zero the wall-clock accumulator, anchor the timestamp, and write
the header via the external exporter.  Otherwise, when `next ≤ t`: update the
metadata and append one record; the unsupported-integrator `default` case
fires `reb_error` after the two leading scalars are already written. -/
def reb_simulationarchive_heartbeat (hlen : ℕ) (now : ℚ) (r : SimState)
    (f : ArchiveFile) : SimState × ArchiveFile :=
  if r.t = 0 then
    let r1 := { r with simulationarchive_seek_blob := reb_simulationarchive_blobsize r }
    let r1 := if r1.integrator = .other then
        reb_error r1 "Simulation archive not implemented for this integrator." else r1
    let r2 := match r1.gravity with
      | .basic => r1
      | .noneG => r1
      | .otherG => reb_error r1 "Simulation archive not implemented for this gravity module."
    let r3 := { r2 with
      simulationarchive_next := r2.simulationarchive_next + r2.simulationarchive_interval
      simulationarchive_walltime := 0
      simulationarchive_time := now }
    reb_output_binary hlen r3
  else
    if r.simulationarchive_next ≤ r.t then
      let r1 := hbAppendState now r
      let r2 := if r1.integrator = .other then
          reb_error r1 "Simulation archive not implemented for this integrator." else r1
      (r2, { f with data := f.data ++ recordScalars r1 })
    else (r, f)

/-- A run of heartbeat calls: before each call the host integrator has moved
the simulation to time `t`; `steps` lists the `(now, t)` pairs in order. -/
def hbRun (hlen : ℕ) : List (ℚ × ℚ) → SimState × ArchiveFile → SimState × ArchiveFile
  | [], rf => rf
  | (now, tv) :: rest, rf =>
      hbRun hlen rest (reb_simulationarchive_heartbeat hlen now { rf.1 with t := tv } rf.2)

/-- Number of records a run of heartbeat calls appends (the calls taken with
`t ≠ 0` and `next ≤ t`). -/
def hbRunCount (hlen : ℕ) : List (ℚ × ℚ) → SimState × ArchiveFile → ℕ
  | [], _ => 0
  | (now, tv) :: rest, rf =>
      (if tv ≠ 0 ∧ rf.1.simulationarchive_next ≤ tv then 1 else 0) +
        hbRunCount hlen rest (reb_simulationarchive_heartbeat hlen now { rf.1 with t := tv } rf.2)

/-- A sample WHFAST simulation state used to instantiate hypotheses of
several theorems at concrete inputs. -/
def sampleWH : SimState :=
  { t := 0
    N := 1
    particles := [⟨1, 0, 0, 0, 0, 0, 0⟩]
    integrator := .whfast
    gravity := .basic
    dt := 0
    dt_last_done := 0
    ri_whfast := ⟨1, 1, 1, [⟨0, 0, 0, 0, 0, 0, 0⟩], [0]⟩
    ri_ias15 := ⟨0, ⟨[], [], [], [], [], [], []⟩, ⟨[], [], [], [], [], [], []⟩,
      ⟨[], [], [], [], [], [], []⟩, ⟨[], [], [], [], [], [], []⟩,
      ⟨[], [], [], [], [], [], []⟩, [], []⟩
    simulationarchive_interval := 1
    simulationarchive_next := 0
    simulationarchive_walltime := 0
    simulationarchive_time := 0
    simulationarchive_seek_first := 0
    simulationarchive_seek_blob := 0
    errors := [] }

/-- Witness for C10: the formula evaluated on the concrete WHFAST sample. -/
theorem blobsize_formula_witness :
    sampleWH.integrator = .whfast ∧
      reb_simulationarchive_blobsize sampleWH = 8 * 2 + 8 * (7 * sampleWH.N) :=
  ⟨rfl, (blobsize_formula sampleWH).1 rfl⟩

/-- An empty file handed to the first heartbeat call (its contents are
irrelevant: the first call truncates and rewrites the file). -/
def emptyFile : ArchiveFile := ⟨none, 0, []⟩

/-- Counterexample to C1 as stated: start a fresh WHFAST run with
`interval = 1` (first call at `t = 0` schedules `next = 1`), then let the
integrator jump to `t = 3` — more than one interval.  The triggered update
advances `next` only once, to `2`, which is not strictly greater than the
observed `t = 3`. -/
theorem heartbeat_update_next_cex :
    ((reb_simulationarchive_heartbeat 32 1
        { (reb_simulationarchive_heartbeat 32 0 sampleWH emptyFile).1 with t := 3 }
        (reb_simulationarchive_heartbeat 32 0 sampleWH emptyFile).2).1.simulationarchive_next = 2)
    ∧ ¬ ((3 : ℚ) <
      (reb_simulationarchive_heartbeat 32 1
        { (reb_simulationarchive_heartbeat 32 0 sampleWH emptyFile).1 with t := 3 }
        (reb_simulationarchive_heartbeat 32 0 sampleWH emptyFile).2).1.simulationarchive_next) := by
  norm_num +decide [reb_simulationarchive_heartbeat, sampleWH, emptyFile, reb_output_binary,
    hbAppendState, reb_simulationarchive_blobsize, reb_error, recordScalars, partScalars]

/-- C1 (amended): a heartbeat call that performs an update advances `next` by
exactly one `interval`; the new `next` strictly exceeds the observed `t`
exactly when `t` had advanced by less than one interval past the previously
scheduled checkpoint (not in general). -/
theorem heartbeat_update_next (hlen : ℕ) (now : ℚ) (r : SimState) (f : ArchiveFile)
    (h0 : r.t ≠ 0) (h1 : r.simulationarchive_next ≤ r.t) :
    (reb_simulationarchive_heartbeat hlen now r f).1.simulationarchive_next
        = r.simulationarchive_next + r.simulationarchive_interval ∧
      (r.t < r.simulationarchive_next + r.simulationarchive_interval →
        r.t < (reb_simulationarchive_heartbeat hlen now r f).1.simulationarchive_next) := by
  unfold reb_simulationarchive_heartbeat
  rw [if_neg h0, if_pos h1]
  cases hI : r.integrator <;> simp [hI, reb_error, hbAppendState]

/-- A WHFAST state mid-run, exactly at its scheduled checkpoint time. -/
def sampleMid : SimState :=
  { sampleWH with t := 1, simulationarchive_next := 1 }

/-- Witness for the amended C1, at a concrete update that advanced `t` by at
most one interval. -/
theorem heartbeat_update_next_witness :
    sampleMid.t ≠ 0 ∧ sampleMid.simulationarchive_next ≤ sampleMid.t ∧
      ((reb_simulationarchive_heartbeat 32 1 sampleMid emptyFile).1.simulationarchive_next
          = sampleMid.simulationarchive_next + sampleMid.simulationarchive_interval ∧
        (sampleMid.t < sampleMid.simulationarchive_next + sampleMid.simulationarchive_interval →
          sampleMid.t <
            (reb_simulationarchive_heartbeat 32 1 sampleMid emptyFile).1.simulationarchive_next)) :=
  ⟨by norm_num [sampleMid, sampleWH], by norm_num [sampleMid, sampleWH],
    heartbeat_update_next 32 1 sampleMid emptyFile (by norm_num [sampleMid, sampleWH])
      (by norm_num [sampleMid, sampleWH])⟩

/-- C4: the first heartbeat invocation (`t == 0`, uninitialized archive, so
`next` still holds its fresh value 0) stores `seek_blob` from the Blob Size
Calculator, leaves `next = interval`, zeroes the wall-clock accumulator,
anchors the wall-clock timestamp to now, writes the header record through the
external full-state exporter, and records `seek_first` as the resulting file
length. -/
theorem heartbeat_first_output (hlen : ℕ) (now : ℚ) (r : SimState) (f : ArchiveFile)
    (h0 : r.t = 0) (h1 : r.simulationarchive_next = 0) :
    (reb_simulationarchive_heartbeat hlen now r f).1.simulationarchive_seek_blob
        = reb_simulationarchive_blobsize r ∧
      (reb_simulationarchive_heartbeat hlen now r f).1.simulationarchive_next
        = r.simulationarchive_interval ∧
      (reb_simulationarchive_heartbeat hlen now r f).1.simulationarchive_walltime = 0 ∧
      (reb_simulationarchive_heartbeat hlen now r f).1.simulationarchive_time = now ∧
      ((reb_simulationarchive_heartbeat hlen now r f).2.header).isSome = true ∧
      (reb_simulationarchive_heartbeat hlen now r f).2.data = [] ∧
      (reb_simulationarchive_heartbeat hlen now r f).1.simulationarchive_seek_first
        = fileLen (reb_simulationarchive_heartbeat hlen now r f).2 := by
  unfold reb_simulationarchive_heartbeat
  rw [if_pos h0]
  cases hI : r.integrator <;> cases hG : r.gravity <;>
    simp [hI, hG, h1, reb_error, reb_output_binary, fileLen]

/-- Witness for C4 at the concrete fresh WHFAST state. -/
theorem heartbeat_first_output_witness :
    sampleWH.t = 0 ∧ sampleWH.simulationarchive_next = 0 ∧
      ((reb_simulationarchive_heartbeat 32 7 sampleWH emptyFile).1.simulationarchive_seek_blob
          = reb_simulationarchive_blobsize sampleWH ∧
        (reb_simulationarchive_heartbeat 32 7 sampleWH emptyFile).1.simulationarchive_next
          = sampleWH.simulationarchive_interval ∧
        (reb_simulationarchive_heartbeat 32 7 sampleWH emptyFile).1.simulationarchive_walltime = 0 ∧
        (reb_simulationarchive_heartbeat 32 7 sampleWH emptyFile).1.simulationarchive_time = 7 ∧
        ((reb_simulationarchive_heartbeat 32 7 sampleWH emptyFile).2.header).isSome = true ∧
        (reb_simulationarchive_heartbeat 32 7 sampleWH emptyFile).2.data = [] ∧
        (reb_simulationarchive_heartbeat 32 7 sampleWH emptyFile).1.simulationarchive_seek_first
          = fileLen (reb_simulationarchive_heartbeat 32 7 sampleWH emptyFile).2) :=
  ⟨rfl, rfl, heartbeat_first_output 32 7 sampleWH emptyFile rfl rfl⟩

/-- A state mid-run whose integrator is outside the supported subset. -/
def sampleOther : SimState :=
  { sampleWH with integrator := .other, t := 1, simulationarchive_next := 1/2 }

/-- Counterexample to C5 as stated: on a triggered append with an unsupported
integrator the invocation still writes the two leading scalars — the file
grows by 16 bytes, contradicting "no archive bytes are written" (the error is
reported through the non-fatal sink). -/
theorem heartbeat_unsupported_cex :
    (reb_simulationarchive_heartbeat 32 2 sampleOther emptyFile).2.data.length = 2 ∧
      fileLen (reb_simulationarchive_heartbeat 32 2 sampleOther emptyFile).2
        = fileLen emptyFile + 16 ∧ (16 : ℕ) ≠ 0 ∧
      (reb_simulationarchive_heartbeat 32 2 sampleOther emptyFile).1.errors
        = ["Simulation archive not implemented for this integrator."] := by
  norm_num +decide [reb_simulationarchive_heartbeat, sampleOther, sampleWH, emptyFile,
    hbAppendState, reb_error, recordScalars, partScalars, fileLen]

/-- C5 (amended): an unsupported integrator or gravity mode is surfaced
through the non-fatal error sink and the simulation may continue (its time,
particle count and particles are untouched), but archiving is not fully
skipped: a triggered append still writes the two leading scalars (`t` and the
wall-clock accumulator, 16 bytes) with no integrator payload, and the first
call still writes the header record. -/
theorem heartbeat_unsupported_config (hlen : ℕ) (now : ℚ) (r : SimState) (f : ArchiveFile) :
    (r.t ≠ 0 → r.simulationarchive_next ≤ r.t → r.integrator = .other →
      (reb_simulationarchive_heartbeat hlen now r f).1.errors
          = r.errors ++ ["Simulation archive not implemented for this integrator."] ∧
        (reb_simulationarchive_heartbeat hlen now r f).2.data
          = f.data ++ [r.t, r.simulationarchive_walltime + (now - r.simulationarchive_time)] ∧
        fileLen (reb_simulationarchive_heartbeat hlen now r f).2 = fileLen f + 16 ∧
        (reb_simulationarchive_heartbeat hlen now r f).1.t = r.t ∧
        (reb_simulationarchive_heartbeat hlen now r f).1.N = r.N ∧
        (reb_simulationarchive_heartbeat hlen now r f).1.particles = r.particles) ∧
    (r.t = 0 → r.gravity = .otherG →
      "Simulation archive not implemented for this gravity module."
          ∈ (reb_simulationarchive_heartbeat hlen now r f).1.errors ∧
        ((reb_simulationarchive_heartbeat hlen now r f).2.header).isSome = true) := by
  constructor
  · intro h0 h1 hI
    unfold reb_simulationarchive_heartbeat
    rw [if_neg h0, if_pos h1]
    simp [hI, reb_error, hbAppendState, recordScalars, fileLen]
    ring
  · intro h0 hG
    unfold reb_simulationarchive_heartbeat
    rw [if_pos h0]
    cases hI : r.integrator <;> simp [hI, hG, reb_error, reb_output_binary]

/-- Witness for the amended C5 at the concrete unsupported-integrator state. -/
theorem heartbeat_unsupported_config_witness :
    sampleOther.t ≠ 0 ∧ sampleOther.simulationarchive_next ≤ sampleOther.t ∧
      sampleOther.integrator = .other ∧
      ((reb_simulationarchive_heartbeat 32 2 sampleOther emptyFile).1.errors
          = sampleOther.errors ++ ["Simulation archive not implemented for this integrator."] ∧
        (reb_simulationarchive_heartbeat 32 2 sampleOther emptyFile).2.data
          = emptyFile.data ++ [sampleOther.t, sampleOther.simulationarchive_walltime +
              (2 - sampleOther.simulationarchive_time)] ∧
        fileLen (reb_simulationarchive_heartbeat 32 2 sampleOther emptyFile).2
          = fileLen emptyFile + 16 ∧
        (reb_simulationarchive_heartbeat 32 2 sampleOther emptyFile).1.t = sampleOther.t ∧
        (reb_simulationarchive_heartbeat 32 2 sampleOther emptyFile).1.N = sampleOther.N ∧
        (reb_simulationarchive_heartbeat 32 2 sampleOther emptyFile).1.particles
          = sampleOther.particles) :=
  ⟨by norm_num [sampleOther, sampleWH], by norm_num [sampleOther, sampleWH], rfl,
    (heartbeat_unsupported_config 32 2 sampleOther emptyFile).1
      (by norm_num [sampleOther, sampleWH]) (by norm_num [sampleOther, sampleWH]) rfl⟩

end SimArchive

namespace SimArchive

/-- Total length of the per-particle serialization loop output. -/
theorem length_partScalars (perPart : ℕ → List ℚ) (k : ℕ)
    (h : ∀ i, (perPart i).length = k) : ∀ n, (partScalars perPart n).length = n * k := by
  intro n
  induction n with
  | zero => simp [partScalars]
  | succ n ih => simp [partScalars, ih, h, Nat.succ_mul]

/-- A block write emits exactly `n` scalars. -/
theorem length_writeArr (a : List ℚ) (n : ℕ) : (writeArr a n).length = n := by
  simp [writeArr]

/-- One coefficient table serializes to `7 * n3` scalars. -/
theorem length_save_dp7 (d : Dp7) (n3 : ℕ) : (reb_save_dp7 d n3).length = 7 * n3 := by
  simp [reb_save_dp7, length_writeArr]; ring

/-- The WHFAST particle loop emits seven scalars per particle. -/
theorem length_partScalars_whfast (parts ps : List Particle) (n : ℕ) :
    (partScalars (whfastPart parts ps) n).length = n * 7 :=
  length_partScalars (whfastPart parts ps) 7 (fun _ => rfl) n

/-- The IAS15 particle loop emits seven scalars per particle. -/
theorem length_partScalars_ias15 (parts : List Particle) (n : ℕ) :
    (partScalars (ias15Part parts) n).length = n * 7 :=
  length_partScalars (ias15Part parts) 7 (fun _ => rfl) n

/-- For a supported integrator one appended record is exactly
`reb_simulationarchive_blobsize` bytes. -/
theorem length_recordScalars (r : SimState)
    (h : r.integrator = .whfast ∨ r.integrator = .ias15) :
    8 * (recordScalars r).length = reb_simulationarchive_blobsize r := by
  rcases h with h | h <;>
    simp [recordScalars, h, reb_simulationarchive_blobsize,
      length_partScalars_whfast, length_partScalars_ias15, length_save_dp7,
      length_writeArr] <;> ring

/-- The record size depends only on the integrator kind and `N`. -/
theorem blobsize_congr (r1 r2 : SimState) (hI : r1.integrator = r2.integrator)
    (hN : r1.N = r2.N) :
    reb_simulationarchive_blobsize r1 = reb_simulationarchive_blobsize r2 := by
  unfold reb_simulationarchive_blobsize
  rw [hI, hN]

/-- A heartbeat call with `t ≠ 0` never touches the integrator, `N`,
`seek_blob`, `seek_first` or the header region; it appends one record when
triggered and nothing otherwise. -/
theorem heartbeat_step_props (hlen : ℕ) (now : ℚ) (r : SimState) (f : ArchiveFile)
    (h0 : r.t ≠ 0) :
    (reb_simulationarchive_heartbeat hlen now r f).1.integrator = r.integrator ∧
      (reb_simulationarchive_heartbeat hlen now r f).1.N = r.N ∧
      (reb_simulationarchive_heartbeat hlen now r f).1.simulationarchive_seek_blob
        = r.simulationarchive_seek_blob ∧
      (reb_simulationarchive_heartbeat hlen now r f).1.simulationarchive_seek_first
        = r.simulationarchive_seek_first ∧
      (reb_simulationarchive_heartbeat hlen now r f).2.headerLen = f.headerLen ∧
      (reb_simulationarchive_heartbeat hlen now r f).2.data
        = f.data ++ (if r.simulationarchive_next ≤ r.t then
            recordScalars (hbAppendState now r) else []) := by
  unfold reb_simulationarchive_heartbeat
  rw [if_neg h0]
  by_cases hc : r.simulationarchive_next ≤ r.t
  · rw [if_pos hc]
    cases hI : r.integrator <;> simp [hI, hc, reb_error, hbAppendState]
  · rw [if_neg hc]
    simp [hc]

/-- File growth over a run of heartbeat calls away from `t = 0`: the file
gains exactly `seek_blob` bytes per triggered append. -/
theorem hbRun_growth (hlen : ℕ) (steps : List (ℚ × ℚ)) :
    ∀ (r : SimState) (f : ArchiveFile),
      (r.integrator = .whfast ∨ r.integrator = .ias15) →
      r.simulationarchive_seek_blob = reb_simulationarchive_blobsize r →
      (∀ p ∈ steps, p.2 ≠ 0) →
      fileLen (hbRun hlen steps (r, f)).2
        = fileLen f + hbRunCount hlen steps (r, f) * r.simulationarchive_seek_blob := by
  induction steps with
  | nil => intro r f _ _ _; simp [hbRun, hbRunCount]
  | cons p rest ih =>
    obtain ⟨now, tv⟩ := p
    intro r f hint hsb hts
    have hnz : tv ≠ 0 := hts (now, tv) (by simp)
    have h0 : ({ r with t := tv } : SimState).t ≠ 0 := hnz
    obtain ⟨hI, hN, hSB, _hSF, hHL, hD⟩ :=
      heartbeat_step_props hlen now { r with t := tv } f h0
    have hBC : reb_simulationarchive_blobsize
        (reb_simulationarchive_heartbeat hlen now { r with t := tv } f).1
        = reb_simulationarchive_blobsize r := blobsize_congr _ _ hI hN
    have hint1 : (reb_simulationarchive_heartbeat hlen now { r with t := tv } f).1.integrator
        = IntegratorKind.whfast ∨
        (reb_simulationarchive_heartbeat hlen now { r with t := tv } f).1.integrator
        = IntegratorKind.ias15 := by rw [hI]; exact hint
    have hsb1 : (reb_simulationarchive_heartbeat hlen now { r with t := tv } f).1.simulationarchive_seek_blob
        = reb_simulationarchive_blobsize
            (reb_simulationarchive_heartbeat hlen now { r with t := tv } f).1 := by
      rw [hSB, hBC]; exact hsb
    have hts1 : ∀ p ∈ rest, p.2 ≠ 0 := fun p hp => hts p (List.mem_cons_of_mem _ hp)
    have hrec := ih (reb_simulationarchive_heartbeat hlen now { r with t := tv } f).1
      (reb_simulationarchive_heartbeat hlen now { r with t := tv } f).2 hint1 hsb1 hts1
    have happ : reb_simulationarchive_blobsize (hbAppendState now { r with t := tv })
        = reb_simulationarchive_blobsize r := blobsize_congr _ _ rfl rfl
    have hflen : fileLen (reb_simulationarchive_heartbeat hlen now { r with t := tv } f).2
        = fileLen f + (if r.simulationarchive_next ≤ tv then r.simulationarchive_seek_blob else 0) := by
      unfold fileLen
      rw [hHL, hD]
      by_cases hc : r.simulationarchive_next ≤ tv
      · simp only [show ({ r with t := tv } : SimState).simulationarchive_next = r.simulationarchive_next from rfl,
          show ({ r with t := tv } : SimState).t = tv from rfl, if_pos hc, List.length_append]
        rw [Nat.mul_add]
        rw [length_recordScalars _ (by exact hint), happ, hsb]
        omega
      · simp [hc]
    simp only [hbRun, hbRunCount]
    rw [hrec, hflen, hSB]
    by_cases hc : r.simulationarchive_next ≤ tv
    · simp [hc, hnz, Nat.add_mul]
      omega
    · simp [hc, hnz]

end SimArchive

namespace SimArchive

/-- C6: for a supported integrator kind, every incremental record the
heartbeat writer appends has byte length exactly `recordSize(kind, N)`
(`reb_simulationarchive_blobsize`), and after a run that starts from a
freshly written header (file length = `seek_first`) and appends `K` records
the file length equals `seek_first + K * seek_blob`. -/
theorem record_size_file_length (hlen : ℕ) (steps : List (ℚ × ℚ)) (r : SimState)
    (f : ArchiveFile)
    (hint : r.integrator = .whfast ∨ r.integrator = .ias15)
    (hsb : r.simulationarchive_seek_blob = reb_simulationarchive_blobsize r)
    (hf : fileLen f = r.simulationarchive_seek_first)
    (hts : ∀ p ∈ steps, p.2 ≠ 0) :
    (∀ r2 : SimState, (r2.integrator = .whfast ∨ r2.integrator = .ias15) →
        8 * (recordScalars r2).length = reb_simulationarchive_blobsize r2) ∧
      fileLen (hbRun hlen steps (r, f)).2
        = r.simulationarchive_seek_first
            + hbRunCount hlen steps (r, f) * r.simulationarchive_seek_blob := by
  refine ⟨fun r2 h2 => length_recordScalars r2 h2, ?_⟩
  rw [hbRun_growth hlen steps r f hint hsb hts, hf]

/-- A freshly initialized WHFAST run: header of 32 bytes just written,
`seek_first = 32`, `seek_blob = 72 = blobsize`, `next = interval = 1`. -/
def rInit : SimState :=
  { sampleWH with
    simulationarchive_seek_blob := 72
    simulationarchive_seek_first := 32
    simulationarchive_next := 1 }

/-- The archive file right after the header write of `rInit`. -/
def fInit : ArchiveFile := ⟨some sampleWH, 32, []⟩

/-- Witness for C6: a concrete two-step run on the fresh WHFAST state. -/
theorem record_size_file_length_witness :
    (rInit.integrator = .whfast ∨ rInit.integrator = .ias15) ∧
      rInit.simulationarchive_seek_blob = reb_simulationarchive_blobsize rInit ∧
      fileLen fInit = rInit.simulationarchive_seek_first ∧
      (∀ p ∈ [((1:ℚ), (3:ℚ)/2), ((2:ℚ), (2:ℚ))], p.2 ≠ 0) ∧
      ((∀ r2 : SimState, (r2.integrator = .whfast ∨ r2.integrator = .ias15) →
          8 * (recordScalars r2).length = reb_simulationarchive_blobsize r2) ∧
        fileLen (hbRun 32 [((1:ℚ), (3:ℚ)/2), ((2:ℚ), (2:ℚ))] (rInit, fInit)).2
          = rInit.simulationarchive_seek_first
              + hbRunCount 32 [((1:ℚ), (3:ℚ)/2), ((2:ℚ), (2:ℚ))] (rInit, fInit)
                  * rInit.simulationarchive_seek_blob) := by
  refine ⟨Or.inl rfl, rfl, rfl, ?_, ?_⟩
  · intro p hp
    simp only [List.mem_cons, List.mem_singleton] at hp
    rcases hp with h | h | h <;> first | (subst h; norm_num) | exact absurd h (by simp)
  · exact record_size_file_length 32 _ rInit fInit (Or.inl rfl) rfl rfl
      (by intro p hp
          simp only [List.mem_cons, List.mem_singleton] at hp
          rcases hp with h | h | h <;> first | (subst h; norm_num) | exact absurd h (by simp))

end SimArchive

namespace SimArchive

/-- The catch-up loop of `reb_simulationarchive_load_blob` (lines 71–73):
`while (next <= t) next += interval`.  The C loop does not terminate when
`interval ≤ 0` and `next ≤ t`; the `0 < interval` conjunct below is the
termination side condition of the model, not a branch of the source. -/
def catchUp (interval t next : ℚ) : ℚ :=
  if h : 0 < interval ∧ next ≤ t then catchUp interval t (next + interval) else next
termination_by (⌈(t - next) / interval⌉ + 1).toNat
decreasing_by
  obtain ⟨hpos, hle⟩ := h
  have hne : interval ≠ 0 := ne_of_gt hpos
  have key : (t - (next + interval)) / interval = (t - next) / interval - 1 := by
    field_simp
    ring
  have h1 : ⌈(t - (next + interval)) / interval⌉ = ⌈(t - next) / interval⌉ - 1 := by
    rw [key, Int.ceil_sub_one]
  have h2 : (0 : ℚ) ≤ (t - next) / interval :=
    div_nonneg (by linarith) (le_of_lt hpos)
  have h3 : 0 ≤ ⌈(t - next) / interval⌉ := Int.ceil_nonneg h2
  omega

/-- fread of one `double`: past the end of file the C `fread` stores nothing,
so the destination keeps its previous value `old`. -/
def readD (s : List ℚ) (old : ℚ) : ℚ × List ℚ :=
  match s with
  | [] => (old, [])
  | v :: rest => (v, rest)

/-- Block fread of `n` doubles (`fread(ptr, sizeof(double)*n, 1, fd)`): the
available scalars are stored, the rest of the destination keeps its old
contents. -/
def readArr (s : List ℚ) (old : List ℚ) (n : ℕ) : List ℚ × List ℚ :=
  ((List.range n).map fun i => s.getD i (old.getD i 0), s.drop n)

/-- Modelled from the spec: external `reb_read_dp7` (input.c, not under
`src/`) reads the seven component arrays of one coefficient table, `n3`
scalars each, in component order. -/
def reb_read_dp7 (d : Dp7) (n3 : ℕ) (s : List ℚ) : Dp7 × List ℚ :=
  let a0 := readArr s d.p0 n3
  let a1 := readArr a0.2 d.p1 n3
  let a2 := readArr a1.2 d.p2 n3
  let a3 := readArr a2.2 d.p3 n3
  let a4 := readArr a3.2 d.p4 n3
  let a5 := readArr a4.2 d.p5 n3
  let a6 := readArr a5.2 d.p6 n3
  (⟨a0.1, a1.1, a2.1, a3.1, a4.1, a5.1, a6.1⟩, a6.2)

/-- Modelled from the spec: external `reb_integrator_ias15_alloc`
(integrator_ias15.c, not under `src/`) reallocates the adaptive-high-order
kind's auxiliary tables to hold `3·N` scalars each; fresh allocations are
zeroed in the model (the C contents are immediately overwritten by reads). -/
def reb_integrator_ias15_alloc (r : SimState) : SimState :=
  let n3 := r.N * 3
  if r.ri_ias15.allocated_N < n3 then
    { r with ri_ias15 :=
      { allocated_N := n3
        b := ⟨List.replicate n3 0, List.replicate n3 0, List.replicate n3 0,
          List.replicate n3 0, List.replicate n3 0, List.replicate n3 0, List.replicate n3 0⟩
        csb := ⟨List.replicate n3 0, List.replicate n3 0, List.replicate n3 0,
          List.replicate n3 0, List.replicate n3 0, List.replicate n3 0, List.replicate n3 0⟩
        e := ⟨List.replicate n3 0, List.replicate n3 0, List.replicate n3 0,
          List.replicate n3 0, List.replicate n3 0, List.replicate n3 0, List.replicate n3 0⟩
        br := ⟨List.replicate n3 0, List.replicate n3 0, List.replicate n3 0,
          List.replicate n3 0, List.replicate n3 0, List.replicate n3 0, List.replicate n3 0⟩
        er := ⟨List.replicate n3 0, List.replicate n3 0, List.replicate n3 0,
          List.replicate n3 0, List.replicate n3 0, List.replicate n3 0, List.replicate n3 0⟩
        csx := List.replicate n3 0
        csv := List.replicate n3 0 } }
  else r

/-- The WHFAST read loop (lines 94–102): for each particle the mass is read
into `r->particles[i].m` and the six coordinates into `ps[i]`, where `ps`
aliases the particle array itself when safe mode is on (`safe0 = false`) and
the Jacobi array `p_j` otherwise.  `cnt` counts the remaining iterations and
`i` is the current index. -/
def loadWHParts (safe0 : Bool) : ℕ → ℕ → List Particle → List Particle → List ℚ →
    List Particle × List Particle × List ℚ
  | 0, _, parts, pj, s => (parts, pj, s)
  | cnt + 1, i, parts, pj, s =>
    let q0 := readD s ((parts.getD i default).m)
    let parts1 := parts.set i { parts.getD i default with m := q0.1 }
    if safe0 then
      let p := pj.getD i default
      let q1 := readD q0.2 p.x
      let q2 := readD q1.2 p.y
      let q3 := readD q2.2 p.z
      let q4 := readD q3.2 p.vx
      let q5 := readD q4.2 p.vy
      let q6 := readD q5.2 p.vz
      loadWHParts safe0 cnt (i + 1) parts1
        (pj.set i { p with x := q1.1, y := q2.1, z := q3.1, vx := q4.1, vy := q5.1, vz := q6.1 })
        q6.2
    else
      let p := parts1.getD i default
      let q1 := readD q0.2 p.x
      let q2 := readD q1.2 p.y
      let q3 := readD q2.2 p.z
      let q4 := readD q3.2 p.vx
      let q5 := readD q4.2 p.vy
      let q6 := readD q5.2 p.vz
      loadWHParts safe0 cnt (i + 1)
        (parts1.set i { p with x := q1.1, y := q2.1, z := q3.1, vx := q4.1, vy := q5.1, vz := q6.1 })
        pj q6.2

/-- The Jacobi mass recomputation loop (lines 109–112): for `i` from 1 to
`N-1`, `eta[i] = eta[i-1] + particles[i].m` and `p_j[i].m = particles[i].m`.
`cnt` counts the remaining iterations and `i` is the current index. -/
def jacobiMassLoop (parts : List Particle) : ℕ → ℕ → List ℚ → List Particle →
    List ℚ × List Particle
  | 0, _, eta, pj => (eta, pj)
  | cnt + 1, i, eta, pj =>
    jacobiMassLoop parts cnt (i + 1)
      (eta.set i (eta.getD (i - 1) 0 + (parts.getD i default).m))
      (pj.set i { pj.getD i default with m := (parts.getD i default).m })

/-- The WHFAST branch of the loader (lines 75–115): reallocate `p_j` and
`eta` when undersized (safe mode off), read the particle loop, and with safe
mode off mark the state unsynchronized and rebuild the Jacobi masses from the
just-read particle masses.  The C code executes the `eta[0]`/`p_j[0]`
assignments even for `N = 0` (an out-of-bounds write); the model's `set` on
an empty list is a no-op there. -/
def loadWHFast (r : SimState) (s : List ℚ) : SimState :=
  let w0 := r.ri_whfast
  let w := if w0.safe_mode = 0 ∧ w0.allocated_N < r.N then
      { w0 with
        p_j := List.replicate r.N default
        eta := List.replicate r.N 0
        allocated_N := r.N }
    else w0
  let out := loadWHParts (decide (w.safe_mode = 0)) r.N 0 r.particles w.p_j s
  if w.safe_mode = 0 then
    let m0 := (out.1.getD 0 default).m
    let eta1 := w.eta.set 0 m0
    let pj1 := out.2.1.set 0 { out.2.1.getD 0 default with m := m0 }
    let out2 := jacobiMassLoop out.1 (r.N - 1) 1 eta1 pj1
    { r with
      particles := out.1
      ri_whfast := { w with p_j := out2.2, eta := out2.1, is_synchronized := 0 } }
  else
    { r with particles := out.1, ri_whfast := { w with p_j := out.2.1 } }

/-- The IAS15 particle read loop (lines 121–129): all seven scalars are read
into the particle array. -/
def loadIASParts : ℕ → ℕ → List Particle → List ℚ → List Particle × List ℚ
  | 0, _, parts, s => (parts, s)
  | cnt + 1, i, parts, s =>
    let p := parts.getD i default
    let q0 := readD s p.m
    let q1 := readD q0.2 p.x
    let q2 := readD q1.2 p.y
    let q3 := readD q2.2 p.z
    let q4 := readD q3.2 p.vx
    let q5 := readD q4.2 p.vy
    let q6 := readD q5.2 p.vz
    loadIASParts cnt (i + 1)
      (parts.set i ⟨q0.1, q1.1, q2.1, q3.1, q4.1, q5.1, q6.1⟩)
      q6.2

/-- The IAS15 branch of the loader (lines 116–139): read `dt` and
`dt_last_done`, the particle fields, reallocate the auxiliary tables, then
read the five coefficient tables and the two correction arrays. -/
def loadIAS15 (r : SimState) (s : List ℚ) : SimState :=
  let q0 := readD s r.dt
  let q1 := readD q0.2 r.dt_last_done
  let pp := loadIASParts r.N 0 r.particles q1.2
  let r1 := reb_integrator_ias15_alloc
    { r with
      dt := q0.1
      dt_last_done := q1.1
      particles := pp.1 }
  let n3 := r1.N * 3
  let b1 := reb_read_dp7 r1.ri_ias15.b n3 pp.2
  let csb1 := reb_read_dp7 r1.ri_ias15.csb n3 b1.2
  let e1 := reb_read_dp7 r1.ri_ias15.e n3 csb1.2
  let br1 := reb_read_dp7 r1.ri_ias15.br n3 e1.2
  let er1 := reb_read_dp7 r1.ri_ias15.er n3 br1.2
  let csx1 := readArr er1.2 r1.ri_ias15.csx n3
  let csv1 := readArr csx1.2 r1.ri_ias15.csv n3
  { r1 with ri_ias15 :=
    { r1.ri_ias15 with
      b := b1.1
      csb := csb1.1
      e := e1.1
      br := br1.1
      er := er1.1
      csx := csx1.1
      csv := csv1.1 } }

/-- The seek offset computed by `reb_simulationarchive_load_blob` (lines
57–62): a negative index seeks to `EOF - seek_blob` (`SEEK_END`), a positive
one to `seek_first + (blob-1)*seek_blob` from the start (`SEEK_SET`). -/
def seekTarget (r : SimState) (flen : ℕ) (blob : ℤ) : ℤ :=
  if blob < 0 then (flen : ℤ) - (r.simulationarchive_seek_blob : ℤ)
  else (r.simulationarchive_seek_first : ℤ) + (blob - 1) * (r.simulationarchive_seek_blob : ℤ)

/-- The scalar stream of the incremental region beginning at byte offset `p`.
A position inside the opaque header or off the 8-byte scalar grid yields no
data (the loader only lands there when the state's seek metadata does not
match the file; the C code would then deserialize raw header bytes). -/
def streamFrom (f : ArchiveFile) (p : ℤ) : List ℚ :=
  if p < (f.headerLen : ℤ) ∨ (p - f.headerLen) % 8 ≠ 0 then []
  else f.data.drop ((p - f.headerLen).toNat / 8)

/-- The integrator switch of the loader (lines 74–144); every branch of the
C switch falls through to `return 0`, including the unsupported-integrator
`default`, which only reports through `reb_error`. -/
def loadDispatch (r : SimState) (s : List ℚ) : SimState × ℤ :=
  match r.integrator with
  | .whfast => (loadWHFast r s, 0)
  | .ias15 => (loadIAS15 r s, 0)
  | .other => (reb_error r "Simulation archive not implemented for this integrator.", 0)

/-- C `reb_simulationarchive_load_blob` (lines 42–148).  `file = none` models
a failing `access` check (return `-1`; the C `!r` null check has no
counterpart here).  Index 0 delegates to the external full-state importer
(modelled from the spec: it replaces the state with the header snapshot, or
reports through `reb_error` when the file is unreadable) and returns 0 either
way, as the C code does.  Otherwise the loader seeks — POSIX `fseek` on a
regular file succeeds for any non-negative resulting offset, even at or past
EOF, and fails only when the resulting offset is negative, so the model's
seek fails (return `-3`, state untouched) exactly when the target offset is
negative — then reads `t` and the wall-clock accumulator (reads at or beyond
EOF store nothing), re-anchors the wall-clock timestamp to now, re-runs the
checkpoint catch-up loop, and dispatches on the integrator. -/
def reb_simulationarchive_load_blob (now : ℚ) (file : Option ArchiveFile)
    (r : SimState) (blob : ℤ) : SimState × ℤ :=
  match file with
  | none => (r, -1)
  | some f =>
    if blob = 0 then
      match f.header with
      | some h => (h, 0)
      | none => (reb_error r "Cannot read binary file. Check filename and file contents.", 0)
    else
      let target := seekTarget r (fileLen f) blob
      if target < 0 then (r, -3)
      else
        let s0 := streamFrom f target
        let q0 := readD s0 r.t
        let q1 := readD q0.2 r.simulationarchive_walltime
        let r1 := { r with
          t := q0.1
          simulationarchive_walltime := q1.1
          simulationarchive_time := now }
        let nx := catchUp r1.simulationarchive_interval r1.t r1.simulationarchive_next
        loadDispatch { r1 with simulationarchive_next := nx } q1.2

/-- Modelled from the spec: the external full-state importer
`reb_create_simulation_from_binary` (input.c, not under `src/`) rebuilds a
simulation from the header record, or returns NULL when the file is
unreadable. -/
def reb_create_simulation_from_binary (f : ArchiveFile) : Option SimState :=
  f.header

/-- C `reb_simulationarchive_restart` (lines 179–189): check the file exists,
load the header snapshot (NULL on failure), then load the latest blob; a
blob-load failure is reported through `reb_error` on the simulation, which is
returned regardless. -/
def reb_simulationarchive_restart (now : ℚ) (file : Option ArchiveFile) : Option SimState :=
  match file with
  | none => none
  | some f =>
    match reb_create_simulation_from_binary f with
    | none => none
    | some r =>
      let res := reb_simulationarchive_load_blob now (some f) r (-1)
      some (if res.2 ≠ 0 then reb_error res.1 "Cannot read binary file." else res.1)

end SimArchive

namespace SimArchive

/-- The catch-up loop leaves `next` strictly above `t` (for `0 < interval`). -/
theorem catchUp_gt_t (interval t : ℚ) (hpos : 0 < interval) :
    ∀ next : ℚ, t < catchUp interval t next := by
  refine catchUp.induct interval t (fun next => t < catchUp interval t next) ?_ ?_
  · intro next hc ih
    rw [catchUp, dif_pos hc]
    exact ih
  · intro next hc
    rw [catchUp, dif_neg hc]
    rcases not_and_or.mp hc with h | h
    · exact absurd hpos h
    · exact lt_of_not_le h

/-- The catch-up loop only performs repeated additions of `interval`. -/
theorem catchUp_steps (interval t : ℚ) :
    ∀ next : ℚ, ∃ k : ℕ, catchUp interval t next = next + k * interval := by
  refine catchUp.induct interval t
    (fun next => ∃ k : ℕ, catchUp interval t next = next + k * interval) ?_ ?_
  · intro next hc ih
    obtain ⟨k, hk⟩ := ih
    refine ⟨k + 1, ?_⟩
    rw [catchUp, dif_pos hc, hk]
    push_cast
    ring
  · intro next hc
    refine ⟨0, ?_⟩
    rw [catchUp, dif_neg hc]
    ring

/-- Minimality of the catch-up result: one interval earlier it was `≤ t`. -/
theorem catchUp_minimal (interval t : ℚ) (hpos : 0 < interval) :
    ∀ next : ℚ, next ≤ t → catchUp interval t next - interval ≤ t := by
  refine catchUp.induct interval t
    (fun next => next ≤ t → catchUp interval t next - interval ≤ t) ?_ ?_
  · intro next hc ih _hle
    rw [catchUp, dif_pos hc]
    by_cases h2 : next + interval ≤ t
    · exact ih h2
    · rw [catchUp, dif_neg (by tauto)]
      linarith [lt_of_not_le h2]
  · intro next hc hle
    rw [catchUp, dif_neg hc]
    linarith

end SimArchive

namespace SimArchive

/-- C7: record addressing.  For `b ≥ 1` the loader seeks to
`seek_first + (b-1)·seek_blob` from the start of the file; any negative index
seeks to `EOF - seek_blob`; consecutive records tile the file in steps of
`seek_blob`, and on a file holding exactly `K ≥ 1` records the latest-index
seek coincides with the seek for record `K`. -/
theorem seek_addressing (r : SimState) (flen : ℕ) (b : ℤ) (K : ℕ)
    (hb : 1 ≤ b)
    (hK : (flen : ℤ) = (r.simulationarchive_seek_first : ℤ)
        + (K : ℤ) * (r.simulationarchive_seek_blob : ℤ))
    (hK1 : 1 ≤ K) :
    seekTarget r flen b
        = (r.simulationarchive_seek_first : ℤ)
            + (b - 1) * (r.simulationarchive_seek_blob : ℤ) ∧
      (∀ b2 : ℤ, b2 < 0 →
        seekTarget r flen b2 = (flen : ℤ) - (r.simulationarchive_seek_blob : ℤ)) ∧
      seekTarget r flen b + (r.simulationarchive_seek_blob : ℤ) = seekTarget r flen (b + 1) ∧
      seekTarget r flen (-1) = seekTarget r flen (K : ℤ) := by
  refine ⟨?_, ?_, ?_, ?_⟩
  · rw [seekTarget, if_neg (by omega)]
  · intro b2 h2
    rw [seekTarget, if_pos h2]
  · rw [seekTarget, if_neg (by omega), seekTarget, if_neg (by omega)]
    ring
  · rw [seekTarget, if_pos (by norm_num), seekTarget, if_neg (by omega), hK]
    ring

/-- Witness for C7 on the concrete fresh WHFAST run metadata with two
records in the file. -/
theorem seek_addressing_witness :
    (1 : ℤ) ≤ 2 ∧
      ((176 : ℕ) : ℤ) = (rInit.simulationarchive_seek_first : ℤ)
          + ((2 : ℕ) : ℤ) * (rInit.simulationarchive_seek_blob : ℤ) ∧
      1 ≤ (2 : ℕ) ∧
      (seekTarget rInit 176 2
          = (rInit.simulationarchive_seek_first : ℤ)
              + ((2 : ℤ) - 1) * (rInit.simulationarchive_seek_blob : ℤ) ∧
        (∀ b2 : ℤ, b2 < 0 →
          seekTarget rInit 176 b2
            = ((176 : ℕ) : ℤ) - (rInit.simulationarchive_seek_blob : ℤ)) ∧
        seekTarget rInit 176 2 + (rInit.simulationarchive_seek_blob : ℤ)
          = seekTarget rInit 176 (2 + 1) ∧
        seekTarget rInit 176 (-1) = seekTarget rInit 176 ((2 : ℕ) : ℤ)) :=
  ⟨by norm_num, by norm_num [rInit, sampleWH], by norm_num,
    seek_addressing rInit 176 2 2 (by norm_num) (by norm_num [rInit, sampleWH]) (by norm_num)⟩

/-- The WHFAST load branch never touches the time or checkpoint metadata. -/
theorem loadWHFast_frame (r : SimState) (s : List ℚ) :
    (loadWHFast r s).t = r.t ∧
      (loadWHFast r s).simulationarchive_next = r.simulationarchive_next ∧
      (loadWHFast r s).simulationarchive_interval = r.simulationarchive_interval ∧
      (loadWHFast r s).simulationarchive_time = r.simulationarchive_time := by
  refine ⟨?_, ?_, ?_, ?_⟩ <;>
    (unfold loadWHFast; dsimp only; split <;> first | rfl | (split <;> rfl))

/-- The IAS15 load branch never touches the time or checkpoint metadata. -/
theorem loadIAS15_frame (r : SimState) (s : List ℚ) :
    (loadIAS15 r s).t = r.t ∧
      (loadIAS15 r s).simulationarchive_next = r.simulationarchive_next ∧
      (loadIAS15 r s).simulationarchive_interval = r.simulationarchive_interval ∧
      (loadIAS15 r s).simulationarchive_time = r.simulationarchive_time := by
  refine ⟨?_, ?_, ?_, ?_⟩ <;>
    (unfold loadIAS15 reb_integrator_ias15_alloc; dsimp only; split <;> rfl)

/-- No branch of the loader's integrator switch touches the time or
checkpoint metadata. -/
theorem loadDispatch_frame (r : SimState) (s : List ℚ) :
    (loadDispatch r s).1.t = r.t ∧
      (loadDispatch r s).1.simulationarchive_next = r.simulationarchive_next ∧
      (loadDispatch r s).1.simulationarchive_interval = r.simulationarchive_interval ∧
      (loadDispatch r s).1.simulationarchive_time = r.simulationarchive_time := by
  unfold loadDispatch
  cases hI : r.integrator <;>
    simp [hI, loadWHFast_frame, loadIAS15_frame, reb_error]

end SimArchive

namespace SimArchive

/-- C8 (amended): after a successful seek the loader reads the record time
into `t` and re-runs the catch-up loop from the state's current `next`: the
new `next` is `catchUp interval t next`, which (for `0 < interval`) strictly
exceeds the just-read `t`, is reached from the old `next` by repeated
addition of `interval`, and is minimal (one interval earlier would be `≤ t`).
This need not equal the schedule of an uninterrupted run, which advances
`next` only once per triggered heartbeat. -/
theorem load_blob_recompute_next (now : ℚ) (f : ArchiveFile) (r : SimState) (b : ℤ)
    (hb : b ≠ 0)
    (hseek : ¬(seekTarget r (fileLen f) b < 0 ∨
      (fileLen f : ℤ) < seekTarget r (fileLen f) b))
    (hpos : 0 < r.simulationarchive_interval) :
    (reb_simulationarchive_load_blob now (some f) r b).1.simulationarchive_next
        = catchUp r.simulationarchive_interval
            (reb_simulationarchive_load_blob now (some f) r b).1.t
            r.simulationarchive_next ∧
      (reb_simulationarchive_load_blob now (some f) r b).1.t
          < (reb_simulationarchive_load_blob now (some f) r b).1.simulationarchive_next ∧
      (∃ k : ℕ,
        (reb_simulationarchive_load_blob now (some f) r b).1.simulationarchive_next
          = r.simulationarchive_next + k * r.simulationarchive_interval) ∧
      (r.simulationarchive_next ≤ (reb_simulationarchive_load_blob now (some f) r b).1.t →
        (reb_simulationarchive_load_blob now (some f) r b).1.simulationarchive_next
            - r.simulationarchive_interval
          ≤ (reb_simulationarchive_load_blob now (some f) r b).1.t) := by
  have hred : reb_simulationarchive_load_blob now (some f) r b
      = loadDispatch
          { r with
            t := (readD (streamFrom f (seekTarget r (fileLen f) b)) r.t).1
            simulationarchive_walltime :=
              (readD (readD (streamFrom f (seekTarget r (fileLen f) b)) r.t).2
                r.simulationarchive_walltime).1
            simulationarchive_time := now
            simulationarchive_next :=
              catchUp r.simulationarchive_interval
                (readD (streamFrom f (seekTarget r (fileLen f) b)) r.t).1
                r.simulationarchive_next }
          (readD (readD (streamFrom f (seekTarget r (fileLen f) b)) r.t).2
            r.simulationarchive_walltime).2 := by
    simp only [reb_simulationarchive_load_blob]
    rw [if_neg hb, if_neg (fun hneg => hseek (Or.inl hneg))]
  obtain ⟨ht, hn, _, _⟩ := loadDispatch_frame
    { r with
      t := (readD (streamFrom f (seekTarget r (fileLen f) b)) r.t).1
      simulationarchive_walltime :=
        (readD (readD (streamFrom f (seekTarget r (fileLen f) b)) r.t).2
          r.simulationarchive_walltime).1
      simulationarchive_time := now
      simulationarchive_next :=
        catchUp r.simulationarchive_interval
          (readD (streamFrom f (seekTarget r (fileLen f) b)) r.t).1
          r.simulationarchive_next }
    (readD (readD (streamFrom f (seekTarget r (fileLen f) b)) r.t).2
      r.simulationarchive_walltime).2
  rw [hred, ht, hn]
  refine ⟨rfl, ?_, ?_, ?_⟩
  · exact catchUp_gt_t r.simulationarchive_interval _ hpos r.simulationarchive_next
  · exact catchUp_steps r.simulationarchive_interval _ r.simulationarchive_next
  · intro hle
    exact catchUp_minimal r.simulationarchive_interval _ hpos r.simulationarchive_next hle

end SimArchive

namespace SimArchive

/-- A one-record WHFAST archive matching `rInit`: 32-byte header, then one
72-byte record (`t = 3/2`, walltime 0, mass 5, coordinates 1..6). -/
def fRec : ArchiveFile := ⟨some sampleWH, 32, [3/2, 0, 5, 1, 2, 3, 4, 5, 6]⟩

/-- Witness for the amended C8: load record 1 of the concrete one-record
archive. -/
theorem load_blob_recompute_next_witness :
    (1 : ℤ) ≠ 0 ∧
      ¬(seekTarget rInit (fileLen fRec) 1 < 0 ∨
        (fileLen fRec : ℤ) < seekTarget rInit (fileLen fRec) 1) ∧
      0 < rInit.simulationarchive_interval ∧
      ((reb_simulationarchive_load_blob 0 (some fRec) rInit 1).1.simulationarchive_next
          = catchUp rInit.simulationarchive_interval
              (reb_simulationarchive_load_blob 0 (some fRec) rInit 1).1.t
              rInit.simulationarchive_next ∧
        (reb_simulationarchive_load_blob 0 (some fRec) rInit 1).1.t
            < (reb_simulationarchive_load_blob 0 (some fRec) rInit 1).1.simulationarchive_next ∧
        (∃ k : ℕ,
          (reb_simulationarchive_load_blob 0 (some fRec) rInit 1).1.simulationarchive_next
            = rInit.simulationarchive_next + k * rInit.simulationarchive_interval) ∧
        (rInit.simulationarchive_next ≤ (reb_simulationarchive_load_blob 0 (some fRec) rInit 1).1.t →
          (reb_simulationarchive_load_blob 0 (some fRec) rInit 1).1.simulationarchive_next
              - rInit.simulationarchive_interval
            ≤ (reb_simulationarchive_load_blob 0 (some fRec) rInit 1).1.t)) :=
  ⟨by norm_num, by norm_num [seekTarget, rInit, sampleWH, fRec, fileLen],
    by norm_num [rInit, sampleWH],
    load_blob_recompute_next 0 fRec rInit 1 (by norm_num)
      (by norm_num [seekTarget, rInit, sampleWH, fRec, fileLen])
      (by norm_num [rInit, sampleWH])⟩

/-- A fresh WHFAST state with no particles (records are then just the two
leading scalars), used to exercise the checkpoint schedule. -/
def r8 : SimState :=
  { sampleWH with N := 0, particles := [], ri_whfast := ⟨1, 0, 1, [], []⟩ }

/-- The header snapshot the first heartbeat of `r8` writes: `seek_blob`
computed, `next` already advanced to `interval`. -/
def hdr8 : SimState :=
  { r8 with simulationarchive_seek_blob := 16, simulationarchive_next := 1 }

/-- The archive produced by running `r8` to `t = 3` with one triggered
append: 24-byte header, then one record `[3, 0]`. -/
def F8 : ArchiveFile := ⟨some hdr8, 24, [3, 0]⟩

/-- Counterexample to C8 as stated: run `r8` with a jump from `t = 0`
straight to `t = 3` (more than one `interval`).  The uninterrupted run ends
with `next = 2`, but restarting from the written archive re-runs the full
catch-up loop and ends with `next = 4`: the post-restart checkpoint schedule
differs from the uninterrupted one. -/
theorem load_catchup_mismatch_cex :
    (hbRun 24 [(0, 3)] (reb_simulationarchive_heartbeat 24 0 r8 emptyFile)).1.simulationarchive_next
        = 2 ∧
      (hbRun 24 [(0, 3)] (reb_simulationarchive_heartbeat 24 0 r8 emptyFile)).2 = F8 ∧
      ((reb_simulationarchive_restart 0 (some F8)).getD r8).simulationarchive_next = 4 ∧
      (2 : ℚ) ≠ 4 := by
  refine ⟨?_, ?_, ?_, by norm_num⟩
  · norm_num +decide [hbRun, reb_simulationarchive_heartbeat, r8, sampleWH, emptyFile,
      reb_output_binary, hbAppendState, reb_error, recordScalars, partScalars]
  · norm_num +decide [hbRun, reb_simulationarchive_heartbeat, r8, hdr8, F8, sampleWH,
      emptyFile, reb_output_binary, hbAppendState, reb_error, recordScalars, partScalars]
  · have c1 : catchUp (1 : ℚ) 3 1 = catchUp 1 3 2 := by
      rw [catchUp]
      norm_num
    have c2 : catchUp (1 : ℚ) 3 2 = catchUp 1 3 3 := by
      rw [catchUp]
      norm_num
    have c3 : catchUp (1 : ℚ) 3 3 = catchUp 1 3 4 := by
      rw [catchUp]
      norm_num
    have c4 : catchUp (1 : ℚ) 3 4 = 4 := by
      rw [catchUp]
      norm_num
    norm_num +decide [reb_simulationarchive_restart, reb_create_simulation_from_binary,
      reb_simulationarchive_load_blob, F8, hdr8, r8, sampleWH, seekTarget, fileLen,
      streamFrom, readD, loadDispatch, loadWHFast, loadWHParts, jacobiMassLoop,
      c1, c2, c3, c4]

end SimArchive

namespace SimArchive

/-- Reading back a just-written list entry. -/
theorem getD_set_self {α : Type} [Inhabited α] (l : List α) (i : ℕ) (a d : α)
    (h : i < l.length) : (l.set i a).getD i d = a := by
  simp [List.getD_eq_getElem?_getD, List.getElem?_set_self', List.getElem?_eq_getElem h]

/-- Writing one list entry leaves the others unchanged. -/
theorem getD_set_ne {α : Type} [Inhabited α] (l : List α) (i j : ℕ) (a d : α)
    (h : i ≠ j) : (l.set i a).getD j d = l.getD j d := by
  simp [List.getD_eq_getElem?_getD, List.getElem?_set_ne h]

/-- Loop invariant of the Jacobi mass recomputation: entries below the
current index are untouched, and every processed index `j` holds
`eta[j-1] + m[j]` in terms of the final array. -/
theorem jacobiMassLoop_eta (parts : List Particle) :
    ∀ (cnt i : ℕ) (eta : List ℚ) (pj : List Particle), 1 ≤ i →
      ((jacobiMassLoop parts cnt i eta pj).1.length = eta.length ∧
        (∀ j, j < i → (jacobiMassLoop parts cnt i eta pj).1.getD j 0 = eta.getD j 0) ∧
        (∀ j, i ≤ j → j < i + cnt → j < eta.length →
          (jacobiMassLoop parts cnt i eta pj).1.getD j 0
            = (jacobiMassLoop parts cnt i eta pj).1.getD (j - 1) 0
                + (parts.getD j default).m)) := by
  intro cnt
  induction cnt with
  | zero =>
    intro i eta pj hi
    exact ⟨rfl, fun j _ => rfl, fun j h1 h2 _ => absurd h2 (by omega)⟩
  | succ cnt ih =>
    intro i eta pj hi
    obtain ⟨ihl, ihfr, ihrec⟩ := ih (i + 1)
      (eta.set i (eta.getD (i - 1) 0 + (parts.getD i default).m))
      (pj.set i { pj.getD i default with m := (parts.getD i default).m }) (by omega)
    refine ⟨?_, ?_, ?_⟩
    · simp only [jacobiMassLoop]
      rw [ihl, List.length_set]
    · intro j hj
      simp only [jacobiMassLoop]
      rw [ihfr j (by omega), getD_set_ne _ _ _ _ _ (by omega)]
    · intro j h1 h2 h3
      simp only [jacobiMassLoop]
      by_cases hj : j = i
      · subst hj
        rw [ihfr j (by omega), ihfr (j - 1) (by omega),
          getD_set_self _ _ _ _ h3, getD_set_ne _ _ _ _ _ (by omega)]
      · exact ihrec j (by omega) (by omega) (by rwa [List.length_set])

end SimArchive

namespace SimArchive

/-- The full rebuild (initial assignment plus loop) satisfies the
cumulative-mass recurrence over the particle masses. -/
theorem jacobiRebuild (parts pjIn : List Particle) (eta : List ℚ) (N : ℕ)
    (hN : 1 ≤ N) (hlen : N ≤ eta.length) :
    ((jacobiMassLoop parts (N - 1) 1
        (eta.set 0 (parts.getD 0 default).m) pjIn).1.getD 0 0
        = (parts.getD 0 default).m) ∧
      ∀ j, 1 ≤ j → j < N →
        (jacobiMassLoop parts (N - 1) 1
            (eta.set 0 (parts.getD 0 default).m) pjIn).1.getD j 0
          = (jacobiMassLoop parts (N - 1) 1
              (eta.set 0 (parts.getD 0 default).m) pjIn).1.getD (j - 1) 0
              + (parts.getD j default).m := by
  obtain ⟨hl, hfr, hrec⟩ := jacobiMassLoop_eta parts (N - 1) 1
    (eta.set 0 (parts.getD 0 default).m) pjIn (le_refl 1)
  constructor
  · rw [hfr 0 (by omega), getD_set_self _ _ _ _ (by omega)]
  · intro j h1 h2
    exact hrec j h1 (by omega) (by rw [List.length_set]; omega)

/-- The WHFAST load branch with safe mode off: the state is marked
unsynchronized and `eta` is rebuilt from the just-read particle masses
(`eta[0] = m[0]`, `eta[j] = eta[j-1] + m[j]`), regardless of anything stored
on disk for it. -/
theorem loadWHFast_jacobi (r : SimState) (s : List ℚ)
    (hsafe : r.ri_whfast.safe_mode = 0) (hN : 1 ≤ r.N)
    (hlen : r.ri_whfast.allocated_N < r.N ∨ r.N ≤ r.ri_whfast.eta.length) :
    (loadWHFast r s).ri_whfast.is_synchronized = 0 ∧
      (loadWHFast r s).ri_whfast.eta.getD 0 0
        = ((loadWHFast r s).particles.getD 0 default).m ∧
      (∀ j, 1 ≤ j → j < r.N →
        (loadWHFast r s).ri_whfast.eta.getD j 0
          = (loadWHFast r s).ri_whfast.eta.getD (j - 1) 0
              + ((loadWHFast r s).particles.getD j default).m) := by
  by_cases hA : r.ri_whfast.allocated_N < r.N
  · unfold loadWHFast
    dsimp only
    rw [if_pos (show r.ri_whfast.safe_mode = 0 ∧ r.ri_whfast.allocated_N < r.N from ⟨hsafe, hA⟩)]
    dsimp only
    rw [if_pos hsafe]
    dsimp only
    obtain ⟨h0, hrec⟩ := jacobiRebuild _ _ (List.replicate r.N (0 : ℚ)) r.N hN
      (by rw [List.length_replicate])
    exact ⟨rfl, h0, hrec⟩
  · unfold loadWHFast
    dsimp only
    rw [if_neg (show ¬(r.ri_whfast.safe_mode = 0 ∧ r.ri_whfast.allocated_N < r.N) from fun hc => hA hc.2)]
    rw [if_pos hsafe]
    dsimp only
    have hlen2 : r.N ≤ r.ri_whfast.eta.length := by
      rcases hlen with h | h
      · exact absurd h hA
      · exact h
    obtain ⟨h0, hrec⟩ := jacobiRebuild _ _ r.ri_whfast.eta r.N hN hlen2
    exact ⟨rfl, h0, hrec⟩

end SimArchive

namespace SimArchive

/-- C9: after a successful WHFAST load with safe mode off, the state is
unsynchronized and the cumulative-mass array equals the running sums of the
post-load particle masses: `eta[0] = m[0]` and `eta[j] = eta[j-1] + m[j]`
for `1 ≤ j < N` — the derived array is computed purely from the primary
masses, never read from disk. -/
theorem load_whfast_rebuilds_jacobi (now : ℚ) (f : ArchiveFile) (r : SimState) (b : ℤ)
    (hb : b ≠ 0)
    (hseek : ¬(seekTarget r (fileLen f) b < 0 ∨
      (fileLen f : ℤ) < seekTarget r (fileLen f) b))
    (hwh : r.integrator = .whfast)
    (hsafe : r.ri_whfast.safe_mode = 0) (hN : 1 ≤ r.N)
    (hlen : r.ri_whfast.allocated_N < r.N ∨ r.N ≤ r.ri_whfast.eta.length) :
    (reb_simulationarchive_load_blob now (some f) r b).1.ri_whfast.is_synchronized = 0 ∧
      (reb_simulationarchive_load_blob now (some f) r b).1.ri_whfast.eta.getD 0 0
        = (((reb_simulationarchive_load_blob now (some f) r b).1.particles.getD 0 default).m) ∧
      (∀ j, 1 ≤ j → j < r.N →
        (reb_simulationarchive_load_blob now (some f) r b).1.ri_whfast.eta.getD j 0
          = (reb_simulationarchive_load_blob now (some f) r b).1.ri_whfast.eta.getD (j - 1) 0
              + (((reb_simulationarchive_load_blob now (some f) r b).1.particles.getD j default).m)) := by
  have hred : reb_simulationarchive_load_blob now (some f) r b
      = (loadWHFast
          { r with
            t := (readD (streamFrom f (seekTarget r (fileLen f) b)) r.t).1
            simulationarchive_walltime :=
              (readD (readD (streamFrom f (seekTarget r (fileLen f) b)) r.t).2
                r.simulationarchive_walltime).1
            simulationarchive_time := now
            simulationarchive_next :=
              catchUp r.simulationarchive_interval
                (readD (streamFrom f (seekTarget r (fileLen f) b)) r.t).1
                r.simulationarchive_next }
          (readD (readD (streamFrom f (seekTarget r (fileLen f) b)) r.t).2
            r.simulationarchive_walltime).2, 0) := by
    simp only [reb_simulationarchive_load_blob]
    rw [if_neg hb, if_neg (fun hneg => hseek (Or.inl hneg))]
    simp only [loadDispatch, hwh]
  rw [hred]
  exact loadWHFast_jacobi _ _ hsafe hN hlen

/-- A WHFAST state with safe mode off and a deliberately wrong stored `eta`
value, to exercise the rebuild. -/
def rSafe0 : SimState :=
  { rInit with ri_whfast := ⟨0, 1, 1, [⟨0, 0, 0, 0, 0, 0, 0⟩], [9]⟩ }

/-- Witness for C9: load record 1 of the one-record archive into `rSafe0`. -/
theorem load_whfast_rebuilds_jacobi_witness :
    (1 : ℤ) ≠ 0 ∧
      ¬(seekTarget rSafe0 (fileLen fRec) 1 < 0 ∨
        (fileLen fRec : ℤ) < seekTarget rSafe0 (fileLen fRec) 1) ∧
      rSafe0.integrator = .whfast ∧
      rSafe0.ri_whfast.safe_mode = 0 ∧ 1 ≤ rSafe0.N ∧
      (rSafe0.ri_whfast.allocated_N < rSafe0.N ∨
        rSafe0.N ≤ rSafe0.ri_whfast.eta.length) ∧
      ((reb_simulationarchive_load_blob 0 (some fRec) rSafe0 1).1.ri_whfast.is_synchronized = 0 ∧
        (reb_simulationarchive_load_blob 0 (some fRec) rSafe0 1).1.ri_whfast.eta.getD 0 0
          = (((reb_simulationarchive_load_blob 0 (some fRec) rSafe0 1).1.particles.getD 0 default).m) ∧
        (∀ j, 1 ≤ j → j < rSafe0.N →
          (reb_simulationarchive_load_blob 0 (some fRec) rSafe0 1).1.ri_whfast.eta.getD j 0
            = (reb_simulationarchive_load_blob 0 (some fRec) rSafe0 1).1.ri_whfast.eta.getD (j - 1) 0
                + (((reb_simulationarchive_load_blob 0 (some fRec) rSafe0 1).1.particles.getD j default).m))) :=
  ⟨by norm_num,
    by norm_num [seekTarget, rSafe0, rInit, sampleWH, fRec, fileLen],
    rfl, rfl, by norm_num [rSafe0, rInit, sampleWH],
    Or.inr (by norm_num [rSafe0, rInit, sampleWH]),
    load_whfast_rebuilds_jacobi 0 fRec rSafe0 1 (by norm_num)
      (by norm_num [seekTarget, rSafe0, rInit, sampleWH, fRec, fileLen])
      rfl rfl (by norm_num [rSafe0, rInit, sampleWH])
      (Or.inr (by norm_num [rSafe0, rInit, sampleWH]))⟩

end SimArchive

namespace SimArchive

/-- Counterexample to C2 as stated: `fRec` holds exactly one record
(`fileLen = seek_first + 1·seek_blob`), so index 2 is beyond the last written
record — yet its seek target lands exactly at EOF, the seek succeeds, every
read hits end-of-file, and the call returns success (0, not the CorruptArchive
code -3) while still re-anchoring the wall-clock timestamp. -/
theorem load_blob_boundary_cex :
    fileLen fRec
        = rInit.simulationarchive_seek_first + 1 * rInit.simulationarchive_seek_blob ∧
      (reb_simulationarchive_load_blob 5 (some fRec) rInit 2).2 = 0 ∧
      ((0 : ℤ) ≠ -3) ∧
      (reb_simulationarchive_load_blob 5 (some fRec) rInit 2).1.simulationarchive_time = 5 ∧
      rInit.simulationarchive_time = 0 := by
  refine ⟨by norm_num [fileLen, fRec, rInit, sampleWH], ?_, by norm_num, ?_,
    by norm_num [rInit, sampleWH]⟩
  · norm_num +decide [reb_simulationarchive_load_blob, seekTarget, fileLen, fRec, rInit,
      sampleWH, streamFrom, readD, loadDispatch, loadWHFast, loadWHParts]
  · norm_num +decide [reb_simulationarchive_load_blob, seekTarget, fileLen, fRec, rInit,
      sampleWH, streamFrom, readD, loadDispatch, loadWHFast, loadWHParts]

/-- Every branch of the loader's integrator switch returns 0. -/
theorem loadDispatch_ret (r : SimState) (s : List ℚ) : (loadDispatch r s).2 = 0 := by
  unfold loadDispatch
  cases hI : r.integrator <;> simp [hI]

/-- C2 (amended): the load fails with the CorruptArchive code `-3` — and
then returns the simulation state exactly as it was, with no field mutated,
the seek being validated before any read — exactly when the computed seek
offset is negative (as for a latest-index load on a file shorter than one
record).  For every non-zero index whose offset is non-negative the seek
succeeds, including every index at or past the end of the written records:
POSIX `fseek` allows positioning at or beyond EOF, the reads there store
nothing, and the call returns success (0) rather than an error, while still
re-anchoring the wall-clock timestamp. -/
theorem load_blob_seek_failure (now : ℚ) (f : ArchiveFile) (r : SimState) (b : ℤ)
    (hb : b ≠ 0) :
    (seekTarget r (fileLen f) b < 0 →
      reb_simulationarchive_load_blob now (some f) r b = (r, -3)) ∧
    (0 ≤ seekTarget r (fileLen f) b →
      (reb_simulationarchive_load_blob now (some f) r b).2 = 0) := by
  constructor
  · intro hneg
    simp only [reb_simulationarchive_load_blob]
    rw [if_neg hb, if_pos hneg]
  · intro hge
    simp only [reb_simulationarchive_load_blob]
    rw [if_neg hb, if_neg (not_lt.mpr hge)]
    exact loadDispatch_ret _ _

/-- A header snapshot whose record size is 16 bytes. -/
def hdr3 : SimState := { sampleWH with simulationarchive_seek_blob := 16 }

/-- An archive whose header imports fine but which is too short to hold even
one incremental record (8 bytes total, `seek_blob = 16`). -/
def fShort : ArchiveFile := ⟨some hdr3, 8, []⟩

/-- Witness for the amended C2: a latest-index load on the too-short archive
(offset `8 - 72 < 0`) fails with `-3` and no mutation, while index 3 of the
one-record archive (offset strictly past EOF) returns success. -/
theorem load_blob_seek_failure_witness :
    ((-1 : ℤ) ≠ 0) ∧ seekTarget rInit (fileLen fShort) (-1) < 0 ∧
      reb_simulationarchive_load_blob 7 (some fShort) rInit (-1) = (rInit, -3) ∧
      ((3 : ℤ) ≠ 0) ∧ (0 : ℤ) ≤ seekTarget rInit (fileLen fRec) 3 ∧
      (reb_simulationarchive_load_blob 5 (some fRec) rInit 3).2 = 0 :=
  ⟨by norm_num, by norm_num [seekTarget, rInit, sampleWH, fShort, fileLen],
    (load_blob_seek_failure 7 fShort rInit (-1) (by norm_num)).1
      (by norm_num [seekTarget, rInit, sampleWH, fShort, fileLen]),
    by norm_num, by norm_num [seekTarget, rInit, sampleWH, fRec, fileLen],
    (load_blob_seek_failure 5 fRec rInit 3 (by norm_num)).2
      (by norm_num [seekTarget, rInit, sampleWH, fRec, fileLen])⟩

/-- Counterexample to C3 as stated: on `fShort` the header load succeeds and
the latest-record load fails (seek to `8 - 16 < 0`, code -3), yet `restart`
still returns a simulation object — the partially built state is handed to
the caller, not discarded. -/
theorem restart_returns_partial_cex :
    (reb_simulationarchive_load_blob 0 (some fShort) hdr3 (-1)).2 = -3 ∧
      (reb_simulationarchive_restart 0 (some fShort)).isSome = true := by
  constructor <;>
    norm_num +decide [reb_simulationarchive_restart, reb_create_simulation_from_binary,
      reb_simulationarchive_load_blob, seekTarget, fileLen, fShort, hdr3, sampleWH]

/-- C3 (amended): `restart` returns NULL when the file is missing or the
header (full-state) import fails; when the header import succeeds but the
latest-record load fails, the failure is reported through the non-fatal
error sink on the simulation object, and that partially built object is
returned to the caller rather than discarded. -/
theorem restart_failure_paths (now : ℚ) :
    reb_simulationarchive_restart now none = none ∧
      (∀ f : ArchiveFile, f.header = none →
        reb_simulationarchive_restart now (some f) = none) ∧
      (∀ (f : ArchiveFile) (h : SimState), f.header = some h →
        (reb_simulationarchive_load_blob now (some f) h (-1)).2 ≠ 0 →
        reb_simulationarchive_restart now (some f)
          = some (reb_error (reb_simulationarchive_load_blob now (some f) h (-1)).1
              "Cannot read binary file.")) := by
  refine ⟨rfl, ?_, ?_⟩
  · intro f hf
    simp [reb_simulationarchive_restart, reb_create_simulation_from_binary, hf]
  · intro f h hf hret
    simp [reb_simulationarchive_restart, reb_create_simulation_from_binary, hf, hret]

/-- Witness for the amended C3 on the too-short archive. -/
theorem restart_failure_paths_witness :
    fShort.header = some hdr3 ∧
      (reb_simulationarchive_load_blob 0 (some fShort) hdr3 (-1)).2 ≠ 0 ∧
      reb_simulationarchive_restart 0 (some fShort)
        = some (reb_error (reb_simulationarchive_load_blob 0 (some fShort) hdr3 (-1)).1
            "Cannot read binary file.") :=
  ⟨rfl,
    by norm_num [reb_simulationarchive_load_blob, seekTarget, fileLen, fShort, hdr3, sampleWH],
    (restart_failure_paths 0).2.2 fShort hdr3 rfl
      (by norm_num [reb_simulationarchive_load_blob, seekTarget, fileLen, fShort, hdr3,
        sampleWH])⟩

end SimArchive
